import Mathlib

/-!
Verification development for the dudoxx-ai provider (TypeScript source).

The definitions below are a shallow embedding of the provider's core:

* the streaming normalization engine of `DudoxxChatLanguageModel.doStream`
  (transform + flush callbacks of the `TransformStream`),
* the non-streaming response mapper of `DudoxxChatLanguageModel.doGenerate`,
* the message translator `convertToDudoxxChatMessages`,
* the tool execution monitor `DudoxxToolExecutionMonitor`,
* the error classifier `classifyError`,
* the embedding model guard `DudoxxEmbeddingModel.doEmbed`.

External host primitives (`Date.now()`, `Math.random()`, `JSON.parse`,
base64 encoding, `process.memoryUsage`) are modelled as explicit
parameters; everything else is translated directly from the source.
-/

namespace DudoxxAI

/-- Character-list helper: `pat` is a leading segment of `s`. -/
def charsStartWith : List Char → List Char → Bool
  | _, [] => true
  | [], _ :: _ => false
  | a :: as, b :: bs => a == b && charsStartWith as bs

/-- Character-list helper: `pat` occurs contiguously inside `s`. -/
def charsContain : List Char → List Char → Bool
  | [], pat => pat.isEmpty
  | a :: as, pat => charsStartWith (a :: as) pat || charsContain as pat

/-- JavaScript `s.includes(sub)` (substring test), used by the monitor to
classify an error message as a timeout. -/
def jsIncludes (s sub : String) : Bool :=
  charsContain s.toList sub.toList

/-- The substring the monitor looks for in error messages
(`error.message.includes` with this literal in the source). -/
def timeoutSubstring : String := "timeout"

/-! ### Finish reason (`map-dudoxx-finish-reason.ts`) -/

/-- The finish reasons produced by `mapDudoxxFinishReason`. -/
inductive FinishReason where
  | stop
  | length
  | toolCalls
  | contentFilter
  | unknown
  deriving DecidableEq, Repr

/-- Embedding of `mapDudoxxFinishReason`: the wire `finish_reason` string
(possibly null/undefined) mapped into the canonical enum. -/
def mapDudoxxFinishReason (finishReason : Option String) : FinishReason :=
  match finishReason with
  | none => .unknown
  | some s =>
    if s = "stop" then .stop
    else if s = "length" then .length
    else if s = "function_call" then .toolCalls
    else if s = "tool_calls" then .toolCalls
    else if s = "content_filter" then .contentFilter
    else .unknown

/-! ### Wire chunk shape (`dudoxxChatChunkSchema`) -/

/-- Token usage as carried on the wire (`usage.prompt_tokens`,
`usage.completion_tokens`; both required numbers when `usage` is present). -/
structure WireUsage where
  prompt_tokens : Nat
  completion_tokens : Nat
  deriving DecidableEq, Repr

/-- The `function` object of a streamed tool-call delta
(`name` and `arguments` both optional). -/
structure DeltaFunction where
  name : Option String
  arguments : Option String
  deriving DecidableEq, Repr

/-- One entry of `delta.tool_calls` in a streamed chunk: optional positional
`index`, optional `id`, optional `function`. -/
structure DeltaToolCall where
  index : Option Nat
  id : Option String
  function : Option DeltaFunction
  deriving DecidableEq, Repr

/-- The `delta` object of a streamed chunk choice: optional `content` and
optional `tool_calls` array. -/
structure ChunkDelta where
  content : Option String
  tool_calls : Option (List DeltaToolCall)
  deriving DecidableEq, Repr

/-- One element of `choices` in a streamed chunk. The schema makes `delta`
a required object, so it is not optional here; `finish_reason` is nullish. -/
structure ChunkChoice where
  delta : ChunkDelta
  finish_reason : Option String
  deriving DecidableEq, Repr

/-- A parsed streaming chunk (`dudoxxChatChunkSchema`): nullish metadata
fields, a `choices` array and a nullish top-level `usage`. -/
structure ChunkValue where
  id : Option String
  created : Option Nat
  model : Option String
  choices : List ChunkChoice
  usage : Option WireUsage
  deriving DecidableEq, Repr

/-- The input of the transform: either a successfully parsed chunk or a
parse failure (`ParseResult` from the provider utils). -/
inductive ChunkParseResult where
  | failure
  | success (value : ChunkValue)
  deriving DecidableEq, Repr

/-! ### Stream events (`LanguageModelV1StreamPart` as emitted by `doStream`) -/

/-- The stream parts emitted by the `doStream` transform of `part_004`:
`error`, `response-metadata`, `text-delta`, `tool-call-delta` and `finish`.
The metadata event carries `getResponseMetadata(value)`, i.e. `id`,
`modelId` and the timestamp `created * 1000` (milliseconds). -/
inductive StreamEvent where
  | errorEv (message : String)
  | responseMetadata (id : Option String) (modelId : Option String)
      (timestampMs : Option Nat)
  | textDelta (textDelta : String)
  | toolCallDelta (toolCallId : String) (toolName : String)
      (argsTextDelta : String)
  | finish (finishReason : FinishReason) (usage : WireUsage)
  deriving DecidableEq, Repr

/-- The message of the generic parse error event enqueued for a failed
chunk (`new Error` with this literal in the source). -/
def parseErrorMessage : String := "Parse error occurred"

/-- The running state of one stream: closed-over `finishReason`, `usage`
and `chunkNumber` of `doStream`, plus the counter of fresh-id draws (one
draw per `Date.now()` / `Math.random()` evaluation in the tool-call loop). -/
structure StreamState where
  finishReason : FinishReason
  usage : WireUsage
  chunkNumber : Nat
  genCounter : Nat
  deriving DecidableEq, Repr

/-- Initial stream state: `finishReason = 'unknown'`,
`usage = {promptTokens: 0, completionTokens: 0}`, `chunkNumber = 0`. -/
def initStreamState : StreamState :=
  { finishReason := .unknown
    usage := { prompt_tokens := 0, completion_tokens := 0 }
    chunkNumber := 0
    genCounter := 0 }

/-- A supply of external randomness for repaired tool-call ids: the n-th
draw yields the pair (`Date.now()` value, `Math.random().toString(36).substring(2, 11)` value). -/
def IdSupply : Type := Nat → Nat × String

/-- The repaired id built in the streaming tool-call loop:
`call_${Date.now()}_${Math.random().toString(36).substring(2, 11)}`. -/
def mkStreamToolCallId (draw : Nat × String) : String :=
  "call_" ++ toString draw.1 ++ "_" ++ draw.2

/-- Resolution of the id of one `delta.tool_calls` entry:
`toolCall.id || <fresh id>` (JavaScript `||`, so an empty wire id is also
replaced); the fresh draw is taken, and the draw counter advanced, only
when the wire id is falsy (short-circuit evaluation). -/
def resolveStreamToolCallId (supply : IdSupply) (counter : Nat)
    (tc : DeltaToolCall) : String × Nat :=
  match tc.id with
  | some s => if s = "" then (mkStreamToolCallId (supply counter), counter + 1) else (s, counter)
  | none => (mkStreamToolCallId (supply counter), counter + 1)

/-- Processing of one `delta.tool_calls` entry in the transform: resolve
the id, then (a) if `function.name` is present and non-empty, emit a
`tool-call-delta` with that name and `function.arguments || ''`; if the
name is present but empty the entry is skipped entirely (`continue` after
the validation warning); (b) if `function.arguments` is present, emit a
further `tool-call-delta` with `function.name || ''` and those arguments. -/
def processDeltaToolCall (supply : IdSupply) (counter : Nat)
    (tc : DeltaToolCall) : List StreamEvent × Nat :=
  let resolved := resolveStreamToolCallId supply counter tc
  let toolCallId := resolved.1
  let fname := tc.function.bind (fun f => f.name)
  let fargs := tc.function.bind (fun f => f.arguments)
  match fname with
  | some n =>
    if n = "" then ([], resolved.2)
    else
      let nameEvents := [StreamEvent.toolCallDelta toolCallId n (fargs.getD "")]
      let argEvents :=
        match fargs with
        | some a => [StreamEvent.toolCallDelta toolCallId n a]
        | none => []
      (nameEvents ++ argEvents, resolved.2)
  | none =>
    match fargs with
    | some a => ([StreamEvent.toolCallDelta toolCallId "" a], resolved.2)
    | none => ([], resolved.2)

/-- The `for (const toolCall of delta.tool_calls)` loop: entries processed
in order, threading the fresh-id draw counter. -/
def processDeltaToolCalls (supply : IdSupply) :
    List DeltaToolCall → Nat → List StreamEvent × Nat
  | [], counter => ([], counter)
  | tc :: rest, counter =>
    let head := processDeltaToolCall supply counter tc
    let tail := processDeltaToolCalls supply rest head.2
    (head.1 ++ tail.1, tail.2)

/-- The delta handling of one chunk: a `text-delta` for `delta.content`
when present (emitted before the tool-call loop), then the tool-call loop
events. -/
def processDelta (supply : IdSupply) (delta : ChunkDelta) (counter : Nat) :
    List StreamEvent × Nat :=
  let contentEvents :=
    match delta.content with
    | some c => [StreamEvent.textDelta c]
    | none => []
  match delta.tool_calls with
  | none => (contentEvents, counter)
  | some tcs =>
    let r := processDeltaToolCalls supply tcs counter
    (contentEvents ++ r.1, r.2)

/-- The `transform` callback of `doStream` for one incoming chunk: a parse
failure enqueues a generic error event and leaves the state untouched; a
parsed chunk increments `chunkNumber`, enqueues `response-metadata` when it
is the first parsed chunk, overwrites the running usage when the chunk
carries `usage`, records a mapped `finish_reason` when present on
`choices[0]`, and emits the delta events of `choices[0].delta`. -/
def transformChunk (supply : IdSupply) (chunk : ChunkParseResult)
    (st : StreamState) : List StreamEvent × StreamState :=
  match chunk with
  | .failure => ([StreamEvent.errorEv parseErrorMessage], st)
  | .success value =>
    let n := st.chunkNumber + 1
    let metaEvents :=
      if n = 1 then
        [StreamEvent.responseMetadata value.id value.model
          (value.created.map (fun c => c * 1000))]
      else []
    let usage1 :=
      match value.usage with
      | some u => { prompt_tokens := u.prompt_tokens, completion_tokens := u.completion_tokens : WireUsage }
      | none => st.usage
    match value.choices.head? with
    | none =>
      (metaEvents,
        { finishReason := st.finishReason, usage := usage1, chunkNumber := n
          genCounter := st.genCounter })
    | some choice =>
      let finishReason1 :=
        match choice.finish_reason with
        | some r => mapDudoxxFinishReason (some r)
        | none => st.finishReason
      let deltaResult := processDelta supply choice.delta st.genCounter
      (metaEvents ++ deltaResult.1,
        { finishReason := finishReason1, usage := usage1, chunkNumber := n
          genCounter := deltaResult.2 })

/-- Sequential processing of the whole chunk sequence through the
transform, in arrival order, accumulating the emitted events. -/
def runChunks (supply : IdSupply) :
    StreamState → List ChunkParseResult → List StreamEvent × StreamState
  | st, [] => ([], st)
  | st, c :: cs =>
    let head := transformChunk supply c st
    let tail := runChunks supply head.2 cs
    (head.1 ++ tail.1, tail.2)

/-- The per-chunk event lists, in arrival order (used to state that the
emitted events preserve chunk arrival order). -/
def chunkEventLists (supply : IdSupply) :
    StreamState → List ChunkParseResult → List (List StreamEvent)
  | _, [] => []
  | st, c :: cs =>
    let head := transformChunk supply c st
    head.1 :: chunkEventLists supply head.2 cs

/-- The complete emitted event sequence of one stream: the transform run
over every chunk followed by the `flush` callback, which enqueues the
single `finish` event with the recorded finish reason and usage snapshot. -/
def processStream (supply : IdSupply) (chunks : List ChunkParseResult) :
    List StreamEvent :=
  let run := runChunks supply initStreamState chunks
  run.1 ++ [StreamEvent.finish run.2.finishReason run.2.usage]

/-- Discriminator for `finish` events. -/
def isFinishEv : StreamEvent → Bool
  | .finish _ _ => true
  | _ => false

/-- Discriminator for `response-metadata` events. -/
def isMetaEv : StreamEvent → Bool
  | .responseMetadata _ _ _ => true
  | _ => false

/-- The tool-call id of a `tool-call-delta` event, if the event is one. -/
def toolCallIdOf : StreamEvent → Option String
  | .toolCallDelta tid _ _ => some tid
  | _ => none

/-- A `tool-call-delta` event carries a non-empty id (trivially true for
every other event kind). -/
def toolCallIdNonempty : StreamEvent → Bool
  | .toolCallDelta tid _ _ => tid ≠ ""
  | _ => true

/-- All `tool-call-delta` events of a list carry one single id. -/
def eventsShareOneId (events : List StreamEvent) : Bool :=
  match events.filterMap toolCallIdOf with
  | [] => true
  | x :: xs => xs.all (fun y => y == x)

/-! ### Non-streaming response shape (`dudoxxChatResponseSchema`) -/

/-- The `function` object of a completed tool call (`name` and `arguments`
both required strings). -/
def jsonEmptyObject : String := "\x7b\x7d"

/-- The `function` object of a non-streaming tool call. -/
structure RespFunction where
  name : String
  arguments : String
  deriving DecidableEq, Repr

/-- One entry of `choices[0].message.tool_calls` (the `id` was made
optional for DUDOXX compatibility; `type` is the literal `function`). -/
structure RespToolCall where
  id : Option String
  function : RespFunction
  deriving DecidableEq, Repr

/-- The `message` of a completed choice. -/
structure RespMessage where
  content : Option String
  tool_calls : Option (List RespToolCall)
  deriving DecidableEq, Repr

/-- One element of `choices` in a completed response. -/
structure RespChoice where
  message : RespMessage
  finish_reason : Option String
  deriving DecidableEq, Repr

/-- A parsed completion (`dudoxxChatResponseSchema`). -/
structure DudoxxChatResponse where
  id : Option String
  created : Option Nat
  model : Option String
  choices : List RespChoice
  usage : Option WireUsage
  deriving DecidableEq, Repr

/-- One tool call of the `doGenerate` result (`toolCallType` is always the
literal `function`). -/
structure GenToolCall where
  toolCallId : String
  toolName : String
  args : String
  deriving DecidableEq, Repr

/-- The pure fields of the `doGenerate` result built from the parsed
completion: text, tool calls, finish reason and usage. -/
structure GenerateResult where
  text : String
  toolCalls : Option (List GenToolCall)
  finishReason : FinishReason
  usage : WireUsage
  deriving DecidableEq, Repr

/-- The repaired id built in `doGenerate`:
`call_${Date.now()}_${Math.random().toString(36).substring(2, 11)}_${toolCall.function.name.substring(0, 8)}`. -/
def mkGenToolCallId (draw : Nat × String) (name : String) : String :=
  "call_" ++ toString draw.1 ++ "_" ++ draw.2 ++ "_" ++ (name.take 8)

/-- Resolution of the id of one non-streaming wire tool call:
`toolCall.id || <generated id>` (JavaScript `||`, so an empty wire id is
also replaced); the fresh draw advances the counter only when taken. -/
def resolveRespToolCallId (supply : IdSupply) (counter : Nat)
    (tc : RespToolCall) : String × Nat :=
  match tc.id with
  | some s =>
    if s = "" then (mkGenToolCallId (supply counter) tc.function.name, counter + 1)
    else (s, counter)
  | none => (mkGenToolCallId (supply counter) tc.function.name, counter + 1)

/-- Mapping of one wire tool call in `doGenerate` (see
`resolveRespToolCallId` for the id): drop the call (`null`) when
`function.name` is falsy, default falsy `arguments` to `'{}'`, and replace
`arguments` by `'{}'` when `JSON.parse` rejects it. -/
def mapRespToolCall (supply : IdSupply) (jsonOk : String → Bool)
    (counter : Nat) (tc : RespToolCall) : Option GenToolCall × Nat :=
  let resolved := resolveRespToolCallId supply counter tc
  if tc.function.name = "" then (none, resolved.2)
  else
    let validatedArgs :=
      if tc.function.arguments = "" then jsonEmptyObject else tc.function.arguments
    let validatedArgs :=
      if jsonOk validatedArgs then validatedArgs else jsonEmptyObject
    (some { toolCallId := resolved.1, toolName := tc.function.name, args := validatedArgs },
      resolved.2)

/-- The `tool_calls?.map(...).filter(x => x !== null)` pipeline of
`doGenerate`, threading the fresh-id draw counter. -/
def mapRespToolCalls (supply : IdSupply) (jsonOk : String → Bool) :
    List RespToolCall → Nat → List GenToolCall × Nat
  | [], counter => ([], counter)
  | tc :: rest, counter =>
    let head := mapRespToolCall supply jsonOk counter tc
    let tail := mapRespToolCalls supply jsonOk rest head.2
    ((match head.1 with | some g => [g] | none => []) ++ tail.1, tail.2)

/-- The result construction of `doGenerate` from a parsed completion:
`choices[0]` is accessed without a guard, so an empty `choices` array is a
runtime failure (`none` here); otherwise text is `content || ''`, tool
calls are mapped with id repair and argument validation, the finish reason
is mapped, and usage counters default to 0 when `usage` is absent. -/
def doGenerateMap (supply : IdSupply) (jsonOk : String → Bool)
    (response : DudoxxChatResponse) : Option GenerateResult :=
  match response.choices.head? with
  | none => none
  | some choice =>
    some
      { text := (choice.message.content).getD ""
        toolCalls := choice.message.tool_calls.map
          (fun tcs => (mapRespToolCalls supply jsonOk tcs 0).1)
        finishReason := mapDudoxxFinishReason choice.finish_reason
        usage :=
          { prompt_tokens := (response.usage.map (fun u => u.prompt_tokens)).getD 0
            completion_tokens := (response.usage.map (fun u => u.completion_tokens)).getD 0 } }

/-! ### Message translator (`convert-to-dudoxx-chat-messages.ts`) -/

/-- The host-level image payload of a user image part: either a `URL`
object or raw bytes. -/
inductive ImagePayload where
  | url (href : String)
  | bytes (data : List Nat)
  deriving DecidableEq, Repr

/-- A content part of a user turn. -/
inductive UserPart where
  | text (text : String)
  | image (image : ImagePayload) (mimeType : Option String)
  | file
  deriving DecidableEq, Repr

/-- A content part of an assistant turn. `args` is the JSON
stringification of the host-level arguments value (the stringifier is an
external host primitive, so the already-stringified text is carried). -/
inductive AssistantPart where
  | text (text : String)
  | toolCall (toolCallId : String) (toolName : String) (args : String)
  deriving DecidableEq, Repr

/-- A `tool-result` part of a tool turn; `result` is its JSON
stringification, as above. -/
structure ToolResultPart where
  toolCallId : String
  result : String
  deriving DecidableEq, Repr

/-- A conversation turn of the host prompt (`LanguageModelV1Prompt`). -/
inductive Turn where
  | system (content : String)
  | user (content : List UserPart)
  | assistant (content : List AssistantPart)
  | tool (content : List ToolResultPart)
  deriving DecidableEq, Repr

/-- One content element of a wire user message. -/
inductive WireUserContent where
  | text (text : String)
  | imageUrl (image_url : String)
  deriving DecidableEq, Repr

/-- One entry of a wire assistant `tool_calls` array (`type` is the
literal `function`). -/
structure WireAssistantToolCall where
  id : String
  name : String
  arguments : String
  deriving DecidableEq, Repr

/-- A wire message as pushed by `convertToDudoxxChatMessages`. The
assistant constructor mirrors the two push sites: `content` text with no
`tool_calls`, or `content = null` with `tool_calls`. -/
inductive DudoxxMessage where
  | system (content : String)
  | user (content : List WireUserContent)
  | assistant (content : Option String) (tool_calls : Option (List WireAssistantToolCall))
  | tool (content : String) (tool_call_id : String)
  deriving DecidableEq, Repr

/-- The translator's only failure: a `file` part in a user turn raises
`UnsupportedFunctionalityError`. -/
inductive ConvError where
  | unsupportedFileContent
  deriving DecidableEq, Repr

/-- Translation of one user content part (`b64` models the external
`convertUint8ArrayToBase64`); the default mime type is `image/jpeg`. -/
def convertUserPart (b64 : List Nat → String) :
    UserPart → Except ConvError WireUserContent
  | .text t => .ok (.text t)
  | .image (.url href) _ => .ok (.imageUrl href)
  | .image (.bytes data) mimeType =>
    .ok (.imageUrl ("data:" ++ (mimeType.getD "image/jpeg") ++ ";base64," ++ b64 data))
  | .file => .error .unsupportedFileContent

/-- The assistant-turn accumulation loop: text parts concatenated in
order, tool-call parts pushed in order with their stringified arguments. -/
def assistantAccum (parts : List AssistantPart) :
    String × List WireAssistantToolCall :=
  parts.foldl
    (fun acc p =>
      match p with
      | .text t => (acc.1 ++ t, acc.2)
      | .toolCall id name args => (acc.1, acc.2 ++ [{ id := id, name := name, arguments := args }]))
    ("", [])

/-- Translation of one conversation turn into its wire messages (the loop
body of `convertToDudoxxChatMessages`; the loop carries no state across
turns). An assistant turn with tool calls emits one message with
`content = null` and the tool calls; otherwise a non-empty accumulated
text emits one text message; otherwise nothing is emitted. -/
def convertTurn (b64 : List Nat → String) :
    Turn → Except ConvError (List DudoxxMessage)
  | .system content => .ok [.system content]
  | .user parts =>
    (parts.mapM (convertUserPart b64)).map (fun cs => [DudoxxMessage.user cs])
  | .assistant parts =>
    let acc := assistantAccum parts
    .ok
      (if acc.2.length > 0 then [DudoxxMessage.assistant none (some acc.2)]
       else if acc.1 ≠ "" then [DudoxxMessage.assistant (some acc.1) none]
       else [])
  | .tool results =>
    .ok (results.map (fun r => DudoxxMessage.tool r.result r.toolCallId))

/-- Embedding of `convertToDudoxxChatMessages`: every turn translated in
order, the per-turn message lists concatenated. -/
def convertToDudoxxChatMessages (b64 : List Nat → String)
    (prompt : List Turn) : Except ConvError (List DudoxxMessage) :=
  (prompt.mapM (convertTurn b64)).map List.flatten

/-- The tool-call part of an assistant content part, if it is one, as the
wire entry the translator builds for it. -/
def assistantToolCallOf : AssistantPart → Option WireAssistantToolCall
  | .toolCall id name args => some { id := id, name := name, arguments := args }
  | .text _ => none

/-- The text of an assistant content part, if it is a text part. -/
def assistantTextOf : AssistantPart → Option String
  | .text t => some t
  | .toolCall _ _ _ => none

/-! ### Tool execution monitor (`DudoxxToolExecutionMonitor`) -/

/-- The monitor configuration (`ToolExecutionConfig`). -/
structure ToolExecutionConfig where
  timeoutMs : Nat
  maxRetries : Nat
  retryDelayMs : Nat
  enableMetrics : Bool
  enablePerformanceTracking : Bool
  deriving DecidableEq, Repr

/-- The constructor defaults: 30000 ms timeout, 3 retries, 1000 ms base
delay, metrics and performance tracking enabled. -/
def defaultToolExecutionConfig : ToolExecutionConfig :=
  { timeoutMs := 30000, maxRetries := 3, retryDelayMs := 1000
    enableMetrics := true, enablePerformanceTracking := true }

/-- The `status` field of a metrics record. -/
inductive ExecStatus where
  | pending
  | success
  | error
  | timeout
  deriving DecidableEq, Repr

/-- A `ToolExecutionMetrics` record (`error` is carried as its message). -/
structure ToolExecutionMetrics (A T : Type) where
  toolName : String
  executionId : String
  startTime : Nat
  endTime : Option Nat
  duration : Option Nat
  status : ExecStatus
  errorMessage : Option String
  retryCount : Nat
  memoryUsage : Option Nat
  args : Option A
  result : Option T
  deriving DecidableEq, Repr

/-- The warnings pushed by the monitor, one constructor per push site
(the source builds message strings with the same data). -/
inductive MonitorWarning where
  | succeededAfterRetries (attempt : Nat)
  | executionTimeout (timeoutMs : Nat)
  | retryScheduled (attempt : Nat) (maxRetries : Nat) (delayMs : Nat)
  | executionFailed (toolName : String) (message : String)
  deriving DecidableEq, Repr

/-- The behaviour of the client `execute` callback on one attempt: it
settles with a value, settles with a rejection carrying a message, or
does not settle within the timeout. -/
inductive AttemptOutcome (T : Type) where
  | ok (value : T)
  | raised (message : String)
  | timedOut
  deriving DecidableEq, Repr

/-- The monitor's timeout rejection message:
`Tool execution timeout after ${timeoutMs}ms`. -/
def timeoutMessage (timeoutMs : Nat) : String :=
  "Tool execution timeout after " ++ toString timeoutMs ++ "ms"

/-- The final throw of `executeWithTimeoutAndRetry` past the loop
(`Tool execution failed after ${maxRetries} retries`; unreachable since
the last attempt rethrows). -/
def retriesExhaustedMessage (maxRetries : Nat) : String :=
  "Tool execution failed after " ++ toString maxRetries ++ " retries"

/-- The outcome of `Promise.race([executeFunction(args), timeoutPromise])`
for one attempt. -/
def raceResult {T : Type} (cfg : ToolExecutionConfig) (o : AttemptOutcome T) :
    Except String T :=
  match o with
  | .ok v => .ok v
  | .raised msg => .error msg
  | .timedOut => .error (timeoutMessage cfg.timeoutMs)

/-- The result of the retry loop: the final settle, the mutated metrics
record, the accumulated warnings and the number of `execute` invocations. -/
structure RetryOutcome (A T : Type) where
  outcome : Except String T
  metrics : ToolExecutionMetrics A T
  warnings : List MonitorWarning
  calls : Nat
  deriving Repr

/-- The loop body of `executeWithTimeoutAndRetry` for attempts
`attempt .. cfg.maxRetries`: record `retryCount := attempt`, race the
callback against the timeout, return on success (warning when a retry
succeeded), classify a rejection as timeout when its message contains
`timeout` (setting `status` and pushing a warning), rethrow on the last
attempt, otherwise back off `retryDelayMs * 2 ^ attempt`, push the retry
warning and continue. The fuel starts at `maxRetries + 1`, so running out
of fuel is the unreachable trailing throw of the source. -/
def retryLoop {A T : Type} (cfg : ToolExecutionConfig)
    (behave : Nat → AttemptOutcome T) :
    Nat → Nat → ToolExecutionMetrics A T → List MonitorWarning → Nat →
    RetryOutcome A T
  | _, 0, metrics, warnings, calls =>
    { outcome := .error (retriesExhaustedMessage cfg.maxRetries)
      metrics := metrics, warnings := warnings, calls := calls }
  | attempt, fuel + 1, metrics, warnings, calls =>
    let metrics := { metrics with retryCount := attempt }
    match raceResult cfg (behave attempt) with
    | .ok v =>
      let warnings :=
        if attempt > 0 then warnings ++ [MonitorWarning.succeededAfterRetries attempt]
        else warnings
      { outcome := .ok v, metrics := metrics, warnings := warnings, calls := calls + 1 }
    | .error msg =>
      let isTimeout := jsIncludes msg timeoutSubstring
      let isLastAttempt := attempt == cfg.maxRetries
      let metrics := if isTimeout then { metrics with status := .timeout } else metrics
      let warnings :=
        if isTimeout then warnings ++ [MonitorWarning.executionTimeout cfg.timeoutMs]
        else warnings
      if isLastAttempt then
        { outcome := .error msg, metrics := metrics, warnings := warnings, calls := calls + 1 }
      else
        let delay := cfg.retryDelayMs * 2 ^ attempt
        let warnings := warnings ++ [MonitorWarning.retryScheduled (attempt + 1) cfg.maxRetries delay]
        retryLoop cfg behave (attempt + 1) fuel metrics warnings (calls + 1)

/-- Embedding of `executeWithTimeoutAndRetry`: the loop from attempt 0. -/
def executeWithTimeoutAndRetry {A T : Type} (cfg : ToolExecutionConfig)
    (behave : Nat → AttemptOutcome T) (metrics : ToolExecutionMetrics A T) :
    RetryOutcome A T :=
  retryLoop cfg behave 0 (cfg.maxRetries + 1) metrics [] 0

/-- The monitor's mutable state: the in-flight map, the bounded completed
history and the configuration. -/
structure MonitorState (A T : Type) where
  activeExecutions : List (String × ToolExecutionMetrics A T)
  completedExecutions : List (ToolExecutionMetrics A T)
  config : ToolExecutionConfig

/-- Embedding of `completeExecution`: delete the execution from the
in-flight map; when metrics are enabled, push a copy of the record and
keep only the last 1000 entries (`slice(-1000)`). -/
def completeExecution {A T : Type} (st : MonitorState A T)
    (executionId : String) (metrics : ToolExecutionMetrics A T) :
    MonitorState A T :=
  let active := st.activeExecutions.filter (fun p => p.1 ≠ executionId)
  if st.config.enableMetrics then
    let completed := st.completedExecutions ++ [metrics]
    let completed :=
      if completed.length > 1000 then completed.drop (completed.length - 1000)
      else completed
    { st with activeExecutions := active, completedExecutions := completed }
  else
    { st with activeExecutions := active }

/-- The record returned by `executeToolWithMonitoring`, extended with the
number of `execute` invocations (instrumentation of the embedding). -/
structure ExecReturn (A T : Type) where
  result : Option T
  errorMessage : Option String
  metrics : ToolExecutionMetrics A T
  warnings : List MonitorWarning
  callsMade : Nat
  deriving Repr

/-- The execution id generated at invocation start:
`${toolName}_${Date.now()}_${Math.random().toString(36).substring(2, 11)}`. -/
def mkExecutionId (toolName : String) (now : Nat) (rand : String) : String :=
  toolName ++ "_" ++ toString now ++ "_" ++ rand

/-- The pending metrics record created at invocation start by
`executeToolWithMonitoring` (capturing `args` only when metrics are
enabled). -/
def pendingMetrics {A T : Type} (toolName : String) (now : Nat)
    (rand : String) (enableMetrics : Bool) (args : A) :
    ToolExecutionMetrics A T :=
  { toolName := toolName, executionId := mkExecutionId toolName now rand
    startTime := now, endTime := none, duration := none, status := .pending
    errorMessage := none, retryCount := 0, memoryUsage := none
    args := if enableMetrics then some args else none
    result := none }

/-- Embedding of `executeToolWithMonitoring`: create the pending metrics
record, register it in the in-flight map, record memory usage when
performance tracking is enabled, run the timeout-and-retry loop, and on
either outcome finalize the record (`success` or `error` status — an
ultimately-failed timeout is also finalized as `error` by the catch
block), move it from the in-flight map to the completed history and
return it; a failure is returned in the `error` field together with a
trailing warning, never thrown. `Date.now`, `Math.random` and
`process.memoryUsage` are the `now`, `rand` and `memUsage` parameters. -/
def executeToolWithMonitoring {A T : Type} (st : MonitorState A T)
    (toolName : String) (args : A) (behave : Nat → AttemptOutcome T)
    (now : Nat) (rand : String) (memUsage : Nat) :
    ExecReturn A T × MonitorState A T :=
  let executionId := mkExecutionId toolName now rand
  let metrics : ToolExecutionMetrics A T :=
    pendingMetrics toolName now rand st.config.enableMetrics args
  let st1 := { st with activeExecutions := st.activeExecutions ++ [(executionId, metrics)] }
  let metrics :=
    if st.config.enablePerformanceTracking then { metrics with memoryUsage := some memUsage }
    else metrics
  let ro := executeWithTimeoutAndRetry st.config behave metrics
  match ro.outcome with
  | .ok v =>
    let m :=
      { ro.metrics with
        status := .success
        endTime := some now
        duration := some (now - ro.metrics.startTime)
        result := if st.config.enableMetrics then some v else none }
    ({ result := some v, errorMessage := none, metrics := m
       warnings := ro.warnings, callsMade := ro.calls },
      completeExecution st1 executionId m)
  | .error msg =>
    let m :=
      { ro.metrics with
        status := .error
        endTime := some now
        duration := some (now - ro.metrics.startTime)
        errorMessage := some msg }
    ({ result := none, errorMessage := some msg, metrics := m
       warnings := ro.warnings ++ [MonitorWarning.executionFailed toolName msg]
       callsMade := ro.calls },
      completeExecution st1 executionId m)

/-! ### Error classifier (`classifyError` in `dudoxx-error.ts`) -/

/-- The error taxonomy of `classifyError`. -/
inductive ErrClass where
  | rate_limit
  | timeout
  | authentication
  | validation
  | server
  | network
  | unknown
  deriving DecidableEq, Repr

/-- The classification returned by `classifyError`. -/
structure ErrorClassification where
  type : ErrClass
  isRetryable : Bool
  retryAfter : Option Nat
  deriving DecidableEq, Repr

/-- A caught error value as the classifier inspects it: the two
`instanceof` tests against the dedicated subclasses, the `instanceof`
test against `APICallError` with its optional `statusCode`, and the
node-style `code` property. -/
structure CaughtError where
  isDudoxxRateLimit : Bool
  rateLimitRetryAfter : Option Nat
  isDudoxxTimeout : Bool
  isAPICallError : Bool
  statusCode : Option Nat
  code : Option String
  deriving DecidableEq, Repr

/-- The network-reset error code tested by the classifier. -/
def codeConnReset : String := "ECONNRESET"

/-- The unresolvable-host error code tested by the classifier. -/
def codeNotFound : String := "ENOTFOUND"

/-- Embedding of `classifyError`: the `DudoxxRateLimitError` and
`DudoxxTimeoutError` subclasses first, then the `APICallError` status
ranges (401/403 authentication, 400/422 validation, truthy status ≥ 500
server; any other status falls through), then the node error codes, and
`unknown`/not-retryable for everything else. -/
def classifyError (e : CaughtError) : ErrorClassification :=
  if e.isDudoxxRateLimit then
    { type := .rate_limit, isRetryable := true, retryAfter := e.rateLimitRetryAfter }
  else if e.isDudoxxTimeout then
    { type := .timeout, isRetryable := true, retryAfter := none }
  else
    let apiResult : Option ErrorClassification :=
      if e.isAPICallError then
        match e.statusCode with
        | some s =>
          if s == 401 || s == 403 then
            some { type := .authentication, isRetryable := false, retryAfter := none }
          else if s == 400 || s == 422 then
            some { type := .validation, isRetryable := false, retryAfter := none }
          else if s != 0 && s ≥ 500 then
            some { type := .server, isRetryable := true, retryAfter := none }
          else none
        | none => none
      else none
    match apiResult with
    | some c => c
    | none =>
      if e.code == some codeConnReset || e.code == some codeNotFound then
        { type := .network, isRetryable := true, retryAfter := none }
      else
        { type := .unknown, isRetryable := false, retryAfter := none }

/-- A caught error matches one of the classifier's known kinds: one of
the dedicated subclasses, an `APICallError` whose status falls in a
classified range, or a known network error code. -/
def isKnownErrorKind (e : CaughtError) : Bool :=
  e.isDudoxxRateLimit || e.isDudoxxTimeout ||
    (e.isAPICallError &&
      (match e.statusCode with
       | some s =>
         (s == 401 || s == 403) || (s == 400 || s == 422) || (s != 0 && s ≥ 500)
       | none => false)) ||
    (e.code == some codeConnReset || e.code == some codeNotFound)

/-! ### Embedding model guard (`dudoxx-embedding-model.ts`) -/

/-- The settings of `DudoxxEmbeddingModel` used by `doEmbed`. -/
structure DudoxxEmbeddingSettings where
  maxEmbeddingsPerCall : Option Nat
  encodingFormat : Option String
  dimensions : Option Nat
  deriving DecidableEq, Repr

/-- The `maxEmbeddingsPerCall` getter: the configured setting, defaulting
to 32. -/
def maxEmbeddingsPerCall (settings : DudoxxEmbeddingSettings) : Nat :=
  settings.maxEmbeddingsPerCall.getD 32

/-- The `TooManyEmbeddingValuesForCallError` payload raised by `doEmbed`. -/
structure TooManyEmbeddingValuesError where
  modelId : String
  maxEmbeddingsPerCall : Nat
  values : List String
  deriving DecidableEq, Repr

/-- The request body `doEmbed` would hand to the transport. -/
structure EmbedRequestBody where
  model : String
  input : List String
  encoding_format : String
  dimensions : Option Nat
  deriving DecidableEq, Repr

/-- Embedding of the caller side of `doEmbed`: when the input list is
longer than `maxEmbeddingsPerCall` the counted error is thrown before the
request body is even built (no network call); otherwise the request body
is assembled (`encoding_format` defaulting to `float`, `dimensions` only
when configured). -/
def doEmbed (modelId : String) (settings : DudoxxEmbeddingSettings)
    (values : List String) : Except TooManyEmbeddingValuesError EmbedRequestBody :=
  if values.length > maxEmbeddingsPerCall settings then
    .error
      { modelId := modelId, maxEmbeddingsPerCall := maxEmbeddingsPerCall settings
        values := values }
  else
    .ok
      { model := modelId, input := values
        encoding_format := settings.encodingFormat.getD "float"
        dimensions := settings.dimensions }

/-! ## Fixtures used by witnesses and counterexamples -/

/-- A plain `APICallError` with status 401 (not one of the subclasses). -/
def apiError401 : CaughtError :=
  { isDudoxxRateLimit := false, rateLimitRetryAfter := none
    isDudoxxTimeout := false, isAPICallError := true
    statusCode := some 401, code := none }

/-- A plain `APICallError` with status 500. -/
def apiError500 : CaughtError :=
  { isDudoxxRateLimit := false, rateLimitRetryAfter := none
    isDudoxxTimeout := false, isAPICallError := true
    statusCode := some 500, code := none }

/-- A `DudoxxRateLimitError` with `retryAfter = 60` (its `APICallError`
superclass carries status 429). -/
def rateLimitError60 : CaughtError :=
  { isDudoxxRateLimit := true, rateLimitRetryAfter := some 60
    isDudoxxTimeout := false, isAPICallError := true
    statusCode := some 429, code := none }

/-- An error value matching none of the classifier's known kinds. -/
def plainUnknownError : CaughtError :=
  { isDudoxxRateLimit := false, rateLimitRetryAfter := none
    isDudoxxTimeout := false, isAPICallError := false
    statusCode := none, code := none }

/-- The arguments string of the C5 scenario: `'{"city":"SF"}'`. -/
def c5Args : String := "\x7b\"city\":\"SF\"\x7d"

/-- The parsed completion of the C5 scenario: a single tool call
`{type: function, function: {name: "get_weather", arguments: '{"city":"SF"}'}}`
with no `id`. -/
def c5Response : DudoxxChatResponse :=
  { id := some "resp-1", created := none, model := none
    choices :=
      [{ message :=
          { content := none
            tool_calls := some [{ id := none, function := { name := "get_weather", arguments := c5Args } }] }
         finish_reason := some "tool_calls" }]
    usage := none }

/-! ## Theorems -/

/-- C8: `classifyError` maps a plain API call error with HTTP status 401
to `{type: authentication, isRetryable: false}`, one with HTTP status 500
to `{type: server, isRetryable: true}`, and a rate-limit error carrying
`retryAfter = 60` to `{type: rate_limit, isRetryable: true, retryAfter: 60}`;
every error matching none of the known kinds is mapped to
`{type: unknown, isRetryable: false}`. -/
theorem classifyError_matches_taxonomy :
    classifyError apiError401 =
      { type := .authentication, isRetryable := false, retryAfter := none } ∧
    classifyError apiError500 =
      { type := .server, isRetryable := true, retryAfter := none } ∧
    classifyError rateLimitError60 =
      { type := .rate_limit, isRetryable := true, retryAfter := some 60 } ∧
    ∀ e : CaughtError, isKnownErrorKind e = false →
      classifyError e = { type := .unknown, isRetryable := false, retryAfter := none } := by
  refine ⟨by decide, by decide, by decide, ?_⟩
  intro e h
  obtain ⟨rl, ra, tmo, api, sc, code⟩ := e
  simp only [isKnownErrorKind, Bool.or_eq_false_iff, Bool.and_eq_false_iff] at h
  obtain ⟨⟨⟨hrl, hto⟩, hapi⟩, hc1, hc2⟩ := h
  subst hrl; subst hto
  rcases hapi with hapi | hmatch
  · subst hapi
    simp [classifyError, hc1, hc2]
  · cases sc with
    | none => cases api <;> simp [classifyError, hc1, hc2]
    | some s =>
      simp only [Bool.or_eq_false_iff] at hmatch
      obtain ⟨⟨h1, h2⟩, h3⟩ := hmatch
      cases api <;> simp [classifyError, hc1, hc2, h1, h2, h3]

/-- C8 witness: the universal `unknown` branch applied to a concrete
error value matching no known kind. -/
theorem classifyError_matches_taxonomy_witness :
    classifyError plainUnknownError =
      { type := .unknown, isRetryable := false, retryAfter := none } :=
  classifyError_matches_taxonomy.2.2.2 plainUnknownError (by decide)

/-- C9: `doEmbed` raises the too-many-embedding-values error, before any
network request body is built, exactly when the input list is strictly
longer than the configured per-call maximum; with the setting absent the
maximum is 32; an input of exactly the maximum length is not rejected. -/
theorem doEmbed_rejects_only_oversized (modelId : String)
    (settings : DudoxxEmbeddingSettings) (values : List String) :
    ((doEmbed modelId settings values).isOk =
      decide (values.length ≤ maxEmbeddingsPerCall settings)) ∧
    (settings.maxEmbeddingsPerCall = none → maxEmbeddingsPerCall settings = 32) := by
  constructor
  · unfold doEmbed
    split
    · next h => simp [Except.isOk, Except.toBool, Nat.not_le.mpr h]
    · next h => simp [Except.isOk, Except.toBool, Nat.le_of_not_lt h]
  · intro h
    unfold maxEmbeddingsPerCall
    rw [h]
    rfl

/-- C5: for the parsed completion whose `choices[0].message.tool_calls` is
the single id-less entry for `get_weather` with arguments
`'{"city":"SF"}'`, `doGenerate` yields exactly one tool call, whose id is
the generated (non-empty) repaired id, whose name is `get_weather` and
whose args string is unchanged — for every id draw and every `JSON.parse`
behaviour that accepts the valid literal. -/
theorem doGenerate_single_idless_tool_call (supply : IdSupply)
    (jsonOk : String → Bool) (h : jsonOk c5Args = true) :
    (doGenerateMap supply jsonOk c5Response).map (fun r => r.toolCalls) =
      some (some [{ toolCallId := mkGenToolCallId (supply 0) "get_weather"
                    toolName := "get_weather", args := c5Args }]) ∧
    mkGenToolCallId (supply 0) "get_weather" ≠ "" := by
  constructor
  · have hne : c5Args ≠ "" := by decide
    simp [doGenerateMap, c5Response, mapRespToolCalls, mapRespToolCall,
      resolveRespToolCallId, hne, h]
  · intro hcontra
    have hlen := congrArg String.length hcontra
    simp [mkGenToolCallId, String.length_append] at hlen
    exact absurd hlen.1.1.1.1.1 (by decide)

/-- C5 witness: the theorem at a concrete id draw and a concrete
`JSON.parse` model accepting the literal. -/
theorem doGenerate_single_idless_tool_call_witness :
    (doGenerateMap (fun n => (n, "r")) (fun _ => true) c5Response).map (fun r => r.toolCalls) =
      some (some [{ toolCallId := mkGenToolCallId ((fun (n : Nat) => (n, "r")) 0) "get_weather"
                    toolName := "get_weather", args := c5Args }]) ∧
    mkGenToolCallId ((fun (n : Nat) => (n, "r")) 0) "get_weather" ≠ "" :=
  doGenerate_single_idless_tool_call (fun n => (n, "r")) (fun _ => true) rfl

/-- Helper for C6: one mapped tool call always carries `JSON.parse`-valid
args, given that `'{}'` is itself valid. -/
theorem mapRespToolCall_args_parseable (supply : IdSupply)
    (jsonOk : String → Bool) (hempty : jsonOk jsonEmptyObject = true)
    (counter : Nat) (tc : RespToolCall) (g : GenToolCall)
    (hg : (mapRespToolCall supply jsonOk counter tc).1 = some g) :
    jsonOk g.args = true := by
  unfold mapRespToolCall at hg
  by_cases hname : tc.function.name = ""
  · simp [hname] at hg
  · simp only [hname, if_false] at hg
    set v1 := if tc.function.arguments = "" then jsonEmptyObject else tc.function.arguments with hv1
    by_cases hok : jsonOk v1 = true
    · simp only [hok, if_true, Option.some.injEq] at hg
      rw [← hg]
      exact hok
    · simp only [hok, if_false, Option.some.injEq] at hg
      rw [← hg]
      exact hempty

/-- Helper for C6: every tool call produced by the mapping pipeline
carries `JSON.parse`-valid args. -/
theorem mapRespToolCalls_args_parseable (supply : IdSupply)
    (jsonOk : String → Bool) (hempty : jsonOk jsonEmptyObject = true) :
    ∀ (tcs : List RespToolCall) (counter : Nat) (g : GenToolCall),
      g ∈ (mapRespToolCalls supply jsonOk tcs counter).1 → jsonOk g.args = true := by
  intro tcs
  induction tcs with
  | nil => intro counter g hg; simp [mapRespToolCalls] at hg
  | cons tc rest ih =>
    intro counter g hg
    simp only [mapRespToolCalls, List.mem_append] at hg
    rcases hg with hg | hg
    · rcases hhead : (mapRespToolCall supply jsonOk counter tc).1 with _ | g0
      · rw [hhead] at hg; simp at hg
      · rw [hhead] at hg
        simp only [List.mem_singleton] at hg
        subst hg
        exact mapRespToolCall_args_parseable supply jsonOk hempty counter tc g hhead
    · exact ih _ g hg

/-- C6: provided `JSON.parse` accepts `'{}'`, every tool call in a mapped
`doGenerate` result has `JSON.parse`-valid args; a named tool call whose
(falsy-defaulted) arguments fail to parse is still produced, with its args
replaced by `'{}'`; and the mapper never fails a response with a
non-empty `choices` array. -/
theorem doGenerate_args_always_parseable (supply : IdSupply)
    (jsonOk : String → Bool) (hempty : jsonOk jsonEmptyObject = true) :
    (∀ (response : DudoxxChatResponse) (r : GenerateResult) (tcs : List GenToolCall),
      doGenerateMap supply jsonOk response = some r → r.toolCalls = some tcs →
      ∀ g ∈ tcs, jsonOk g.args = true) ∧
    (∀ (counter : Nat) (tc : RespToolCall), tc.function.name ≠ "" →
      jsonOk (if tc.function.arguments = "" then jsonEmptyObject else tc.function.arguments) = false →
      (mapRespToolCall supply jsonOk counter tc).1 =
        some { toolCallId := (resolveRespToolCallId supply counter tc).1
               toolName := tc.function.name, args := jsonEmptyObject }) ∧
    (∀ response : DudoxxChatResponse, response.choices ≠ [] →
      (doGenerateMap supply jsonOk response).isSome = true) := by
  refine ⟨?_, ?_, ?_⟩
  · intro response r tcs hr htcs g hg
    unfold doGenerateMap at hr
    rcases hhead : response.choices.head? with _ | choice
    · rw [hhead] at hr; exact absurd hr (by simp)
    · rw [hhead] at hr
      simp only [Option.some.injEq] at hr
      subst hr
      simp only at htcs
      rcases hwire : choice.message.tool_calls with _ | wires
      · rw [hwire] at htcs; simp at htcs
      · rw [hwire] at htcs
        simp only [Option.map_some', Option.some.injEq] at htcs
        subst htcs
        exact mapRespToolCalls_args_parseable supply jsonOk hempty wires 0 g hg
  · intro counter tc hname hbad
    unfold mapRespToolCall
    simp [hname, hbad]
  · intro response hne
    unfold doGenerateMap
    rcases hhead : response.choices.head? with _ | choice
    · exact absurd (List.head?_eq_none_iff.mp hhead) hne
    · simp

/-- C6 witness: the theorem applied with a concrete `JSON.parse` model
that accepts only `'{}'`, on a response whose single tool call carries
unparseable arguments; its args degrade to `'{}'`. -/
theorem doGenerate_args_always_parseable_witness :
    (mapRespToolCall (fun n => (n, "r")) (fun s => s == jsonEmptyObject) 0
        { id := none, function := { name := "f", arguments := "not json" } }).1 =
      some { toolCallId := (resolveRespToolCallId (fun n => (n, "r")) 0
                { id := none, function := { name := "f", arguments := "not json" } }).1
             toolName := "f", args := jsonEmptyObject } :=
  (doGenerate_args_always_parseable (fun n => (n, "r"))
      (fun s => s == jsonEmptyObject) (by decide)).2.1 0
    { id := none, function := { name := "f", arguments := "not json" } }
    (by decide) (by decide)

/-- C9 witness: with no configured maximum, 32 inputs pass the guard and
33 would exceed the default maximum of 32. -/
theorem doEmbed_rejects_only_oversized_witness :
    ((doEmbed "embedder" { maxEmbeddingsPerCall := none, encodingFormat := none, dimensions := none }
        (List.replicate 32 "x")).isOk =
      decide ((List.replicate 32 "x").length ≤
        maxEmbeddingsPerCall { maxEmbeddingsPerCall := none, encodingFormat := none, dimensions := none })) ∧
    maxEmbeddingsPerCall { maxEmbeddingsPerCall := none, encodingFormat := none, dimensions := none } = 32 :=
  ⟨(doEmbed_rejects_only_oversized "embedder" _ _).1,
    (doEmbed_rejects_only_oversized "embedder"
      { maxEmbeddingsPerCall := none, encodingFormat := none, dimensions := none }
      (List.replicate 32 "x")).2 rfl⟩

/-- Helper for C4: the tool-call accumulation of the assistant loop is
exactly the turn's tool-call parts, in order. -/
theorem assistantAccum_toolCalls_aux (parts : List AssistantPart) :
    ∀ acc : String × List WireAssistantToolCall,
      (parts.foldl
        (fun acc p =>
          match p with
          | .text t => (acc.1 ++ t, acc.2)
          | .toolCall id name args =>
            (acc.1, acc.2 ++ [{ id := id, name := name, arguments := args }]))
        acc).2 = acc.2 ++ parts.filterMap assistantToolCallOf := by
  induction parts with
  | nil => intro acc; simp
  | cons p rest ih =>
    intro acc
    cases p with
    | text t => simp [List.foldl_cons, assistantTextOf, assistantToolCallOf, ih]
    | toolCall id name args =>
      simp [List.foldl_cons, assistantToolCallOf, ih]

/-- Helper for C4: with no text part, the accumulated text stays the
initial accumulator. -/
theorem assistantAccum_text_aux (parts : List AssistantPart)
    (h : parts.filterMap assistantTextOf = []) :
    ∀ acc : String × List WireAssistantToolCall,
      (parts.foldl
        (fun acc p =>
          match p with
          | .text t => (acc.1 ++ t, acc.2)
          | .toolCall id name args =>
            (acc.1, acc.2 ++ [{ id := id, name := name, arguments := args }]))
        acc).1 = acc.1 := by
  induction parts with
  | nil => intro acc; simp
  | cons p rest ih =>
    intro acc
    cases p with
    | text t =>
      exact absurd h (by simp [assistantTextOf])
    | toolCall id name args =>
      have h' : rest.filterMap assistantTextOf = [] := by
        simpa [assistantTextOf] using h
      simp [List.foldl_cons, ih h']

/-- C4: an assistant turn containing at least one tool-call part is
translated to exactly one wire message whose `tool_calls` lists all the
turn's tool calls in order and whose `content` is null — its text parts
are absent from the output; an assistant turn with neither text nor
tool-call parts emits no wire message. -/
theorem assistant_turn_wire_message (b64 : List Nat → String)
    (parts : List AssistantPart) :
    (parts.filterMap assistantToolCallOf ≠ [] →
      convertTurn b64 (.assistant parts) =
        .ok [DudoxxMessage.assistant none (some (parts.filterMap assistantToolCallOf))] ∧
      convertToDudoxxChatMessages b64 [Turn.assistant parts] =
        .ok [DudoxxMessage.assistant none (some (parts.filterMap assistantToolCallOf))]) ∧
    (parts.filterMap assistantToolCallOf = [] → parts.filterMap assistantTextOf = [] →
      convertTurn b64 (.assistant parts) = .ok []) := by
  have hsnd : (assistantAccum parts).2 = parts.filterMap assistantToolCallOf := by
    unfold assistantAccum
    simpa using assistantAccum_toolCalls_aux parts ("", [])
  constructor
  · intro h
    have hlen : (assistantAccum parts).2.length > 0 := by
      rw [hsnd]
      exact List.length_pos.mpr h
    have hconv : convertTurn b64 (.assistant parts) =
        .ok [DudoxxMessage.assistant none (some (parts.filterMap assistantToolCallOf))] := by
      simp only [convertTurn]
      rw [if_pos hlen, hsnd]
    refine ⟨hconv, ?_⟩
    unfold convertToDudoxxChatMessages
    rw [List.mapM_cons, List.mapM_nil, hconv]
    rfl
  · intro htc htext
    have hlen : ¬ (assistantAccum parts).2.length > 0 := by
      rw [hsnd, htc]
      simp
    have hfst : (assistantAccum parts).1 = "" := by
      unfold assistantAccum
      simpa using assistantAccum_text_aux parts htext ("", [])
    simp only [convertTurn]
    rw [if_neg hlen, hfst]
    simp

/-- C4 witness: a turn mixing one text part and one tool-call part maps
to the single tool-calls wire message with null content. -/
theorem assistant_turn_wire_message_witness :
    convertTurn (fun _ => "") (.assistant [.text "hi", .toolCall "id1" "f" "\x7b\x7d"]) =
      .ok [DudoxxMessage.assistant none
        (some ([AssistantPart.text "hi", AssistantPart.toolCall "id1" "f" "\x7b\x7d"].filterMap assistantToolCallOf))] :=
  ((assistant_turn_wire_message (fun _ => "")
      [.text "hi", .toolCall "id1" "f" "\x7b\x7d"]).1 (by decide)).1

/-- Helper: the retry loop never changes the execution id of the metrics
record (it only touches `retryCount` and `status`). -/
theorem retryLoop_executionId {A T : Type} (cfg : ToolExecutionConfig)
    (behave : Nat → AttemptOutcome T) :
    ∀ (fuel attempt : Nat) (m : ToolExecutionMetrics A T)
      (w : List MonitorWarning) (calls : Nat),
      (retryLoop cfg behave attempt fuel m w calls).metrics.executionId = m.executionId := by
  intro fuel
  induction fuel with
  | zero => intro attempt m w calls; rfl
  | succ fuel ih =>
    intro attempt m w calls
    rw [retryLoop]
    cases hr : raceResult cfg (behave attempt) with
    | ok v =>
      simp only [hr]
    | error msg =>
      simp only [hr]
      by_cases hl : (attempt == cfg.maxRetries) = true
      · by_cases ht : jsIncludes msg timeoutSubstring = true <;>
          simp only [hl, ht, if_true, if_false, Bool.false_eq_true]
      · have hl2 : (attempt == cfg.maxRetries) = false := by
          simpa using hl
        by_cases ht : jsIncludes msg timeoutSubstring = true <;>
          simp only [hl2, ht, if_true, if_false, Bool.false_eq_true] <;>
          rw [ih]

/-- Helper: after `completeExecution`, the execution is gone from the
in-flight map. -/
theorem completeExecution_removes_active {A T : Type} (st : MonitorState A T)
    (executionId : String) (m : ToolExecutionMetrics A T) :
    ((completeExecution st executionId m).activeExecutions.all
      (fun p => p.1 != executionId)) = true := by
  unfold completeExecution
  split <;>
    · simp only [List.all_eq_true]
      intro p hp
      have hmem := List.mem_filter.mp hp
      have hne : p.1 ≠ executionId := by simpa using hmem.2
      simpa [bne_iff_ne] using hne

/-- Helper: dropping fewer elements than the length preserves the last
element. -/
theorem getLast?_drop_of_lt {α : Type} :
    ∀ (l : List α) (k : Nat), k < l.length → (l.drop k).getLast? = l.getLast? := by
  intro l
  induction l with
  | nil => intro k h; simp at h
  | cons a tl ih =>
    intro k h
    cases k with
    | zero => rfl
    | succ k =>
      simp only [List.drop_succ_cons]
      have hk : k < tl.length := by simpa using h
      rw [ih k hk]
      cases tl with
      | nil => simp at hk
      | cons b tl2 => rfl

/-- Helper: after `completeExecution` with metrics enabled, the finalized
record is the last entry of the completed history (also under the
1000-entry eviction). -/
theorem completeExecution_appends_history {A T : Type} (st : MonitorState A T)
    (executionId : String) (m : ToolExecutionMetrics A T)
    (h : st.config.enableMetrics = true) :
    (completeExecution st executionId m).completedExecutions.getLast? = some m := by
  unfold completeExecution
  rw [h]
  simp only [if_true]
  have hlast : (st.completedExecutions ++ [m]).getLast? = some m :=
    List.getLast?_concat _
  split
  · next hgt =>
    rw [getLast?_drop_of_lt _ _ (by omega)]
    exact hlast
  · exact hlast

/-- C7: with `maxRetries = 2` and an `execute` callback that rejects with
a non-timeout error on every attempt, the callback is invoked exactly 3
times (the initial attempt plus 2 retries) and the returned metrics
record reports `status = error` and `retryCount = 2`. -/
theorem monitor_exhausts_retries {A T : Type} (st : MonitorState A T)
    (toolName : String) (args : A) (behave : Nat → AttemptOutcome T)
    (now : Nat) (rand : String) (memUsage : Nat)
    (hcfg : st.config = { defaultToolExecutionConfig with maxRetries := 2 })
    (hb : ∀ n, ∃ msg, behave n = .raised msg ∧ jsIncludes msg timeoutSubstring = false) :
    (executeToolWithMonitoring st toolName args behave now rand memUsage).1.callsMade = 3 ∧
    (executeToolWithMonitoring st toolName args behave now rand memUsage).1.metrics.status = .error ∧
    (executeToolWithMonitoring st toolName args behave now rand memUsage).1.metrics.retryCount = 2 := by
  obtain ⟨m0, e0, t0⟩ := hb 0
  obtain ⟨m1, e1, t1⟩ := hb 1
  obtain ⟨m2, e2, t2⟩ := hb 2
  simp only [executeToolWithMonitoring, executeWithTimeoutAndRetry, hcfg,
    defaultToolExecutionConfig]
  norm_num [retryLoop, raceResult, e0, e1, e2, t0, t1, t2]

/-- C7 witness: the theorem at a monitor with `maxRetries = 2` and a
callback always rejecting with the message `boom`. -/
theorem monitor_exhausts_retries_witness :
    (executeToolWithMonitoring
      ({ activeExecutions := [], completedExecutions := []
         config := { defaultToolExecutionConfig with maxRetries := 2 } } : MonitorState Nat Nat)
      "tool" 0 (fun _ => .raised "boom") 5 "r" 7).1.callsMade = 3 ∧
    (executeToolWithMonitoring
      ({ activeExecutions := [], completedExecutions := []
         config := { defaultToolExecutionConfig with maxRetries := 2 } } : MonitorState Nat Nat)
      "tool" 0 (fun _ => .raised "boom") 5 "r" 7).1.metrics.status = .error ∧
    (executeToolWithMonitoring
      ({ activeExecutions := [], completedExecutions := []
         config := { defaultToolExecutionConfig with maxRetries := 2 } } : MonitorState Nat Nat)
      "tool" 0 (fun _ => .raised "boom") 5 "r" 7).1.metrics.retryCount = 2 :=
  monitor_exhausts_retries _ "tool" 0 (fun _ => .raised "boom") 5 "r" 7 rfl
    (fun _ => ⟨"boom", rfl, by decide⟩)

/-- C10: for every monitor state with metrics enabled and every tool
name, argument and callback behaviour (always-throwing and never-settling
included), `executeToolWithMonitoring` returns (never throws): either a
success with no error and `status = success`, or a captured failure in the
error field with `status = error`; the metrics record is finalized
(`endTime` set), the execution is removed from the active map and the
finalized record is appended as the last entry of the completed history. -/
theorem monitor_always_returns {A T : Type} (st : MonitorState A T)
    (toolName : String) (args : A) (behave : Nat → AttemptOutcome T)
    (now : Nat) (rand : String) (memUsage : Nat)
    (hm : st.config.enableMetrics = true) :
    (((executeToolWithMonitoring st toolName args behave now rand memUsage).1.result.isSome = true ∧
      (executeToolWithMonitoring st toolName args behave now rand memUsage).1.errorMessage = none ∧
      (executeToolWithMonitoring st toolName args behave now rand memUsage).1.metrics.status = .success) ∨
     ((executeToolWithMonitoring st toolName args behave now rand memUsage).1.result = none ∧
      (executeToolWithMonitoring st toolName args behave now rand memUsage).1.errorMessage.isSome = true ∧
      (executeToolWithMonitoring st toolName args behave now rand memUsage).1.metrics.status = .error)) ∧
    (executeToolWithMonitoring st toolName args behave now rand memUsage).1.metrics.endTime = some now ∧
    ((executeToolWithMonitoring st toolName args behave now rand memUsage).2.activeExecutions.all
      (fun p => p.1 != (executeToolWithMonitoring st toolName args behave now rand memUsage).1.metrics.executionId)) = true ∧
    (executeToolWithMonitoring st toolName args behave now rand memUsage).2.completedExecutions.getLast? =
      some (executeToolWithMonitoring st toolName args behave now rand memUsage).1.metrics := by
  have hid :
      (executeWithTimeoutAndRetry st.config behave
        (if st.config.enablePerformanceTracking then
          { pendingMetrics toolName now rand st.config.enableMetrics args with
              memoryUsage := some memUsage }
         else pendingMetrics toolName now rand st.config.enableMetrics args)).metrics.executionId =
        mkExecutionId toolName now rand := by
    unfold executeWithTimeoutAndRetry
    rw [retryLoop_executionId]
    split <;> rfl
  simp only [executeToolWithMonitoring]
  generalize hro :
    (executeWithTimeoutAndRetry st.config behave
      (if st.config.enablePerformanceTracking then
        { pendingMetrics toolName now rand st.config.enableMetrics args with
            memoryUsage := some memUsage }
       else pendingMetrics toolName now rand st.config.enableMetrics args)) = ro at hid ⊢
  rcases ro with ⟨outcome, m, w, calls⟩
  simp only [] at hid
  cases outcome with
  | ok v =>
    simp [hid, hm, completeExecution_removes_active, completeExecution_appends_history]
  | error msg =>
    simp [hid, hm, completeExecution_removes_active, completeExecution_appends_history]

/-- C10 witness: the theorem at a concrete monitor with a callback that
never settles within the timeout; the failure is contained and recorded. -/
theorem monitor_always_returns_witness :
    (((executeToolWithMonitoring
        ({ activeExecutions := [], completedExecutions := []
           config := defaultToolExecutionConfig } : MonitorState Nat Nat)
        "hang" 0 (fun _ => .timedOut) 5 "r" 7).1.result.isSome = true ∧
      (executeToolWithMonitoring
        ({ activeExecutions := [], completedExecutions := []
           config := defaultToolExecutionConfig } : MonitorState Nat Nat)
        "hang" 0 (fun _ => .timedOut) 5 "r" 7).1.errorMessage = none ∧
      (executeToolWithMonitoring
        ({ activeExecutions := [], completedExecutions := []
           config := defaultToolExecutionConfig } : MonitorState Nat Nat)
        "hang" 0 (fun _ => .timedOut) 5 "r" 7).1.metrics.status = .success) ∨
     ((executeToolWithMonitoring
        ({ activeExecutions := [], completedExecutions := []
           config := defaultToolExecutionConfig } : MonitorState Nat Nat)
        "hang" 0 (fun _ => .timedOut) 5 "r" 7).1.result = none ∧
      (executeToolWithMonitoring
        ({ activeExecutions := [], completedExecutions := []
           config := defaultToolExecutionConfig } : MonitorState Nat Nat)
        "hang" 0 (fun _ => .timedOut) 5 "r" 7).1.errorMessage.isSome = true ∧
      (executeToolWithMonitoring
        ({ activeExecutions := [], completedExecutions := []
           config := defaultToolExecutionConfig } : MonitorState Nat Nat)
        "hang" 0 (fun _ => .timedOut) 5 "r" 7).1.metrics.status = .error)) ∧
    (executeToolWithMonitoring
      ({ activeExecutions := [], completedExecutions := []
         config := defaultToolExecutionConfig } : MonitorState Nat Nat)
      "hang" 0 (fun _ => .timedOut) 5 "r" 7).1.metrics.endTime = some 5 ∧
    ((executeToolWithMonitoring
      ({ activeExecutions := [], completedExecutions := []
         config := defaultToolExecutionConfig } : MonitorState Nat Nat)
      "hang" 0 (fun _ => .timedOut) 5 "r" 7).2.activeExecutions.all
      (fun p => p.1 != (executeToolWithMonitoring
        ({ activeExecutions := [], completedExecutions := []
           config := defaultToolExecutionConfig } : MonitorState Nat Nat)
        "hang" 0 (fun _ => .timedOut) 5 "r" 7).1.metrics.executionId)) = true ∧
    (executeToolWithMonitoring
      ({ activeExecutions := [], completedExecutions := []
         config := defaultToolExecutionConfig } : MonitorState Nat Nat)
      "hang" 0 (fun _ => .timedOut) 5 "r" 7).2.completedExecutions.getLast? =
      some (executeToolWithMonitoring
        ({ activeExecutions := [], completedExecutions := []
           config := defaultToolExecutionConfig } : MonitorState Nat Nat)
        "hang" 0 (fun _ => .timedOut) 5 "r" 7).1.metrics :=
  monitor_always_returns _ "hang" 0 (fun _ => .timedOut) 5 "r" 7 rfl

/-- Helper: every event emitted for one `delta.tool_calls` entry is a
`tool-call-delta` carrying exactly the entry's resolved id. -/
theorem processDeltaToolCall_ids (supply : IdSupply) (counter : Nat)
    (tc : DeltaToolCall) :
    ∀ e ∈ (processDeltaToolCall supply counter tc).1,
      toolCallIdOf e = some (resolveStreamToolCallId supply counter tc).1 := by
  intro e he
  simp only [processDeltaToolCall] at he
  rcases hname : tc.function.bind (fun f => f.name) with _ | n
  · rw [hname] at he
    rcases hargs : tc.function.bind (fun f => f.arguments) with _ | a
    · rw [hargs] at he; simp at he
    · rw [hargs] at he
      simp only [List.mem_singleton] at he
      subst he; rfl
  · rw [hname] at he
    by_cases hn : n = ""
    · simp [hn] at he
    · simp only [hn, if_false] at he
      rcases hargs : tc.function.bind (fun f => f.arguments) with _ | a
      · rw [hargs] at he
        simp only [List.append_nil, List.mem_singleton] at he
        subst he; rfl
      · rw [hargs] at he
        simp only [List.mem_append, List.mem_singleton] at he
        rcases he with he | he <;> (subst he; rfl)

/-- Helper: an event with a tool-call id is a `tool-call-delta` event. -/
theorem toolCallIdOf_shape (e : StreamEvent) (tid : String)
    (h : toolCallIdOf e = some tid) :
    ∃ nm ar, e = .toolCallDelta tid nm ar := by
  cases e <;> simp [toolCallIdOf] at h
  next tid2 nm ar => exact ⟨nm, ar, by rw [h]⟩

/-- Helper: a freshly generated streaming id is never empty. -/
theorem mkStreamToolCallId_ne_empty (draw : Nat × String) :
    mkStreamToolCallId draw ≠ "" := by
  intro hcontra
  have hlen : (mkStreamToolCallId draw).length = 0 := by rw [hcontra]; rfl
  have h5 : ("call_" : String).length = 5 := rfl
  rw [mkStreamToolCallId, String.length_append, String.length_append,
    String.length_append, h5] at hlen
  omega

/-- Helper: the resolved id of a `delta.tool_calls` entry is never empty. -/
theorem resolveStreamToolCallId_ne_empty (supply : IdSupply) (counter : Nat)
    (tc : DeltaToolCall) :
    (resolveStreamToolCallId supply counter tc).1 ≠ "" := by
  unfold resolveStreamToolCallId
  rcases tc.id with _ | s
  · exact mkStreamToolCallId_ne_empty _
  · by_cases hs : s = ""
    · simpa [hs] using mkStreamToolCallId_ne_empty (supply counter)
    · simp [hs]

/-- Helper: a predicate true on every event of every single tool-call
entry is true on every event of the tool-call loop. -/
theorem processDeltaToolCalls_all (supply : IdSupply)
    (p : StreamEvent → Bool)
    (hTC : ∀ counter tc, (processDeltaToolCall supply counter tc).1.all p = true) :
    ∀ (tcs : List DeltaToolCall) (counter : Nat),
      (processDeltaToolCalls supply tcs counter).1.all p = true := by
  intro tcs
  induction tcs with
  | nil => intro counter; rfl
  | cons tc rest ih =>
    intro counter
    simp [processDeltaToolCalls, List.all_append, hTC, ih]

/-- Helper: a predicate true on text deltas and on tool-call entry events
is true on every event of one chunk's delta handling. -/
theorem processDelta_all (supply : IdSupply) (p : StreamEvent → Bool)
    (hText : ∀ s, p (.textDelta s) = true)
    (hTC : ∀ counter tc, (processDeltaToolCall supply counter tc).1.all p = true) :
    ∀ (delta : ChunkDelta) (counter : Nat),
      (processDelta supply delta counter).1.all p = true := by
  intro delta counter
  unfold processDelta
  have hcontent :
      (match delta.content with
        | some c => [StreamEvent.textDelta c]
        | none => []).all p = true := by
    rcases delta.content with _ | c
    · rfl
    · simpa using hText c
  rcases delta.tool_calls with _ | tcs
  · exact hcontent
  · simp [List.all_append, hcontent, processDeltaToolCalls_all supply p hTC tcs counter]

/-- Helper: a predicate true on the parse-error event, metadata events,
text deltas and tool-call entry events is true on every event the
transform emits for one chunk. -/
theorem transformChunk_all (supply : IdSupply) (p : StreamEvent → Bool)
    (hError : p (.errorEv parseErrorMessage) = true)
    (hMeta : ∀ i mo t, p (.responseMetadata i mo t) = true)
    (hText : ∀ s, p (.textDelta s) = true)
    (hTC : ∀ counter tc, (processDeltaToolCall supply counter tc).1.all p = true) :
    ∀ (c : ChunkParseResult) (st : StreamState),
      (transformChunk supply c st).1.all p = true := by
  intro c st
  cases c with
  | failure =>
    show ([StreamEvent.errorEv parseErrorMessage].all p) = true
    simpa using hError
  | success value =>
    simp only [transformChunk]
    have hmeta :
        (if st.chunkNumber + 1 = 1 then
          [StreamEvent.responseMetadata value.id value.model
            (value.created.map (fun c => c * 1000))]
        else []).all p = true := by
      split
      · simpa using hMeta _ _ _
      · rfl
    rcases value.choices.head? with _ | choice
    · exact hmeta
    · simp [List.all_append, hmeta, hMeta,
        processDelta_all supply p hText hTC choice.delta st.genCounter]

/-- Helper: the same, over a whole chunk sequence. -/
theorem runChunks_all (supply : IdSupply) (p : StreamEvent → Bool)
    (hError : p (.errorEv parseErrorMessage) = true)
    (hMeta : ∀ i mo t, p (.responseMetadata i mo t) = true)
    (hText : ∀ s, p (.textDelta s) = true)
    (hTC : ∀ counter tc, (processDeltaToolCall supply counter tc).1.all p = true) :
    ∀ (cs : List ChunkParseResult) (st : StreamState),
      (runChunks supply st cs).1.all p = true := by
  intro cs
  induction cs with
  | nil => intro st; rfl
  | cons c rest ih =>
    intro st
    simp [runChunks, List.all_append,
      transformChunk_all supply p hError hMeta hText hTC c st, ih]

/-- Helper: no tool-call entry event is a finish or metadata event, and
all carry non-empty ids. -/
theorem processDeltaToolCall_all_cases (supply : IdSupply)
    (p : StreamEvent → Bool)
    (hDelta : ∀ tid nm ar, tid ≠ "" → p (.toolCallDelta tid nm ar) = true) :
    ∀ (counter : Nat) (tc : DeltaToolCall),
      (processDeltaToolCall supply counter tc).1.all p = true := by
  intro counter tc
  simp only [List.all_eq_true]
  intro e he
  have hid := processDeltaToolCall_ids supply counter tc e he
  obtain ⟨nm, ar, rfl⟩ := toolCallIdOf_shape e _ hid
  exact hDelta _ nm ar (resolveStreamToolCallId_ne_empty supply counter tc)

/-- Helper: the transform never emits a finish event; `finish` only comes
from `flush`. -/
theorem runChunks_no_finish (supply : IdSupply) (cs : List ChunkParseResult)
    (st : StreamState) :
    ((runChunks supply st cs).1.countP isFinishEv) = 0 := by
  have hall := runChunks_all supply (fun e => !isFinishEv e)
    (by rfl) (fun _ _ _ => rfl) (fun _ => rfl)
    (processDeltaToolCall_all_cases supply _ (fun _ _ _ _ => rfl)) cs st
  rw [List.countP_eq_zero]
  intro e he
  have := List.all_eq_true.mp hall e he
  simpa using this

/-- Helper: the chunk counter never decreases. -/
theorem transformChunk_chunkNumber (supply : IdSupply)
    (c : ChunkParseResult) (st : StreamState) :
    st.chunkNumber ≤ ((transformChunk supply c st).2).chunkNumber := by
  cases c with
  | failure => exact Nat.le_refl _
  | success value =>
    simp only [transformChunk]
    rcases value.choices.head? with _ | choice <;> simp

/-- Helper: the delta handling of one chunk emits no metadata event. -/
theorem processDelta_no_meta (supply : IdSupply) (delta : ChunkDelta)
    (counter : Nat) :
    ((processDelta supply delta counter).1.countP isMetaEv) = 0 := by
  have hall := processDelta_all supply (fun e => !isMetaEv e) (fun _ => rfl)
    (processDeltaToolCall_all_cases supply _ (fun _ _ _ _ => rfl)) delta counter
  rw [List.countP_eq_zero]
  intro e he
  have := List.all_eq_true.mp hall e he
  simpa using this

/-- Helper: once a successful chunk has been seen, the transform emits no
further metadata event. -/
theorem transformChunk_no_meta_of_pos (supply : IdSupply)
    (c : ChunkParseResult) (st : StreamState) (h : st.chunkNumber ≠ 0) :
    ((transformChunk supply c st).1.countP isMetaEv) = 0 := by
  cases c with
  | failure => rfl
  | success value =>
    simp only [transformChunk]
    have hne : ¬ st.chunkNumber + 1 = 1 := by omega
    rcases value.choices.head? with _ | choice
    · simp [hne]
    · simp [hne, List.countP_append, processDelta_no_meta]

/-- Helper: from a state that has already seen a successful chunk, the
rest of the stream contributes no metadata event. -/
theorem runChunks_no_meta_of_pos (supply : IdSupply)
    (cs : List ChunkParseResult) :
    ∀ st : StreamState, st.chunkNumber ≠ 0 →
      ((runChunks supply st cs).1.countP isMetaEv) = 0 := by
  induction cs with
  | nil => intro st _; rfl
  | cons c rest ih =>
    intro st h
    simp only [runChunks, List.countP_append]
    have h2 : ((transformChunk supply c st).2).chunkNumber ≠ 0 := by
      have := transformChunk_chunkNumber supply c st
      omega
    rw [transformChunk_no_meta_of_pos supply c st h, ih _ h2]

/-- Helper: the first successfully parsed chunk emits the metadata event
first, emits no further metadata, and sets the chunk counter to 1. -/
theorem transformChunk_success_zero (supply : IdSupply) (v : ChunkValue)
    (st : StreamState) (h : st.chunkNumber = 0) :
    ∃ rest,
      (transformChunk supply (.success v) st).1 =
        StreamEvent.responseMetadata v.id v.model (v.created.map (fun c => c * 1000)) :: rest ∧
      rest.countP isMetaEv = 0 ∧
      ((transformChunk supply (.success v) st).2).chunkNumber = st.chunkNumber + 1 := by
  simp only [transformChunk, h]
  rcases v.choices.head? with _ | choice
  · exact ⟨[], by simp⟩
  · exact ⟨(processDelta supply choice.delta st.genCounter).1,
      by simp [processDelta_no_meta]⟩

/-- Helper: the per-chunk event lists concatenate to the run's events. -/
theorem chunkEventLists_flatten (supply : IdSupply)
    (cs : List ChunkParseResult) :
    ∀ st : StreamState,
      (chunkEventLists supply st cs).flatten = (runChunks supply st cs).1 := by
  induction cs with
  | nil => intro st; rfl
  | cons c rest ih =>
    intro st
    simp only [chunkEventLists, runChunks, List.flatten_cons, ih]

/-- Helper: a chunk without a usage object leaves the usage snapshot
untouched. -/
theorem transformChunk_usage_invariant (supply : IdSupply)
    (c : ChunkParseResult) (st : StreamState)
    (h : ∀ v, c = .success v → v.usage = none) :
    ((transformChunk supply c st).2).usage = st.usage := by
  cases c with
  | failure => rfl
  | success value =>
    have hv : value.usage = none := h value rfl
    simp only [transformChunk, hv]
    rcases value.choices.head? with _ | choice <;> rfl

/-- Helper: a run over usage-free chunks keeps the usage snapshot. -/
theorem runChunks_usage_invariant (supply : IdSupply)
    (cs : List ChunkParseResult)
    (h : ∀ v, ChunkParseResult.success v ∈ cs → v.usage = none) :
    ∀ st : StreamState, ((runChunks supply st cs).2).usage = st.usage := by
  induction cs with
  | nil => intro st; rfl
  | cons c rest ih =>
    intro st
    have hc : ∀ v, c = .success v → v.usage = none := by
      intro v hv
      exact h v (by rw [← hv]; exact List.mem_cons_self c rest)
    have hrest : ∀ v, ChunkParseResult.success v ∈ rest → v.usage = none := by
      intro v hv
      exact h v (List.mem_cons_of_mem c hv)
    simp only [runChunks]
    rw [ih hrest, transformChunk_usage_invariant supply c st hc]

/-- The supply used by the streaming counterexamples: draw n is
timestamp 0 with random suffix `toString n` (distinct draws give distinct
repaired ids, as the real generator is built to do). -/
def cexSupply : IdSupply := fun n => (0, toString n)

/-- First counterexample chunk for C2: the tool call at wire index 0,
carrying no id, with the function name and the first arguments fragment. -/
def cexChunk1 : ChunkParseResult := .success
  { id := none, created := none, model := none
    choices :=
      [{ delta :=
          { content := none
            tool_calls := some [{ index := some 0, id := none
                                  function := some { name := some "get_weather", arguments := some "\x7b\"ci" } }] }
         finish_reason := none }]
    usage := none }

/-- Second counterexample chunk for C2: the continuation of the same tool
call (same wire index 0, still no id) carrying only the next arguments
fragment. -/
def cexChunk2 : ChunkParseResult := .success
  { id := none, created := none, model := none
    choices :=
      [{ delta :=
          { content := none
            tool_calls := some [{ index := some 0, id := none
                                  function := some { name := none, arguments := some "ty\":\"SF\"\x7d" } }] }
         finish_reason := none }]
    usage := none }

/-- A minimal successfully parsed chunk used by stream witnesses. -/
def witnessChunkValue : ChunkValue :=
  { id := some "chunk-1", created := some 3, model := some "dudoxx"
    choices := [], usage := none }

/-- C1 counterexample: for the empty chunk sequence (flush alone — a
sequence of parsed-or-failed chunks in the claim's scope), no
`response-metadata` event is emitted at all: the output is just the
single finish event, so the claim's "exactly one response-metadata event,
emitted first" fails. -/
theorem stream_no_metadata_counterexample :
    (processStream cexSupply []).countP isMetaEv = 0 ∧
    processStream cexSupply [] =
      [StreamEvent.finish .unknown { prompt_tokens := 0, completion_tokens := 0 }] := by
  constructor <;> rfl

/-- C1 (amended): for every stream — chunks parsed or failed, in any
number — exactly one `finish` event is emitted and it is the last event,
and the whole output is the concatenation of the per-chunk event lists in
arrival order followed by the single flush `finish`, so text and
tool-call deltas preserve chunk arrival order; additionally, whenever the
first chunk parses successfully, exactly one `response-metadata` event is
emitted and it is the first event. -/
theorem stream_event_order (supply : IdSupply)
    (chunks : List ChunkParseResult) :
    (processStream supply chunks).countP isFinishEv = 1 ∧
    (processStream supply chunks).getLast? =
      some (.finish (runChunks supply initStreamState chunks).2.finishReason
        (runChunks supply initStreamState chunks).2.usage) ∧
    processStream supply chunks =
      (chunkEventLists supply initStreamState chunks).flatten ++
        [.finish (runChunks supply initStreamState chunks).2.finishReason
          (runChunks supply initStreamState chunks).2.usage] ∧
    (∀ v : ChunkValue, chunks.head? = some (.success v) →
      (processStream supply chunks).countP isMetaEv = 1 ∧
      (processStream supply chunks).head? =
        some (.responseMetadata v.id v.model (v.created.map (fun c => c * 1000)))) := by
  refine ⟨?_, ?_, ?_, ?_⟩
  · simp only [processStream, List.countP_append,
      runChunks_no_finish supply _ initStreamState]
    rfl
  · simp only [processStream]
    exact List.getLast?_concat _
  · simp only [processStream, chunkEventLists_flatten]
  · intro v h
    obtain ⟨c, cs, rfl⟩ : ∃ c cs, chunks = c :: cs := by
      cases chunks with
      | nil => simp at h
      | cons c cs => exact ⟨c, cs, rfl⟩
    have hc : c = .success v := by simpa using h
    subst hc
    obtain ⟨rest, hevts, hrestMeta, hcount⟩ :=
      transformChunk_success_zero supply v initStreamState rfl
    constructor
    · simp only [processStream, runChunks, List.countP_append, hevts]
      rw [runChunks_no_meta_of_pos supply cs _ (by omega)]
      simp only [List.countP_cons, hrestMeta]
      rfl
    · simp only [processStream, runChunks, hevts, List.cons_append, List.head?_cons]

/-- C1 witness: the amended theorem at a single-chunk stream whose chunk
parses successfully, the metadata clause discharged at that chunk. -/
theorem stream_event_order_witness :
    (processStream cexSupply [.success witnessChunkValue]).countP isFinishEv = 1 ∧
    (processStream cexSupply [.success witnessChunkValue]).getLast? =
      some (.finish (runChunks cexSupply initStreamState [.success witnessChunkValue]).2.finishReason
        (runChunks cexSupply initStreamState [.success witnessChunkValue]).2.usage) ∧
    processStream cexSupply [.success witnessChunkValue] =
      (chunkEventLists cexSupply initStreamState [.success witnessChunkValue]).flatten ++
        [.finish (runChunks cexSupply initStreamState [.success witnessChunkValue]).2.finishReason
          (runChunks cexSupply initStreamState [.success witnessChunkValue]).2.usage] ∧
    ((processStream cexSupply [.success witnessChunkValue]).countP isMetaEv = 1 ∧
      (processStream cexSupply [.success witnessChunkValue]).head? =
        some (.responseMetadata witnessChunkValue.id witnessChunkValue.model
          (witnessChunkValue.created.map (fun c => c * 1000)))) :=
  ⟨(stream_event_order cexSupply [.success witnessChunkValue]).1,
   (stream_event_order cexSupply [.success witnessChunkValue]).2.1,
   (stream_event_order cexSupply [.success witnessChunkValue]).2.2.1,
   (stream_event_order cexSupply [.success witnessChunkValue]).2.2.2 witnessChunkValue rfl⟩

/-- C2 counterexample: two chunks continue the same tool call (same wire
`index` 0, id absent in both, the name and arguments correctly split
across the chunks), yet the code draws a fresh repaired id per chunk
entry — there is no per-index reuse map — so the two fragments resolve to
the distinct ids `call_0_0` and `call_0_1`, refuting the claimed reuse. -/
theorem stream_repaired_id_not_reused :
    processStream cexSupply [cexChunk1, cexChunk2] =
      [StreamEvent.responseMetadata none none none,
       StreamEvent.toolCallDelta "call_0_0" "get_weather" "\x7b\"ci",
       StreamEvent.toolCallDelta "call_0_0" "get_weather" "\x7b\"ci",
       StreamEvent.toolCallDelta "call_0_1" "" "ty\":\"SF\"\x7d",
       StreamEvent.finish .unknown { prompt_tokens := 0, completion_tokens := 0 }] ∧
    ("call_0_0" : String) ≠ "call_0_1" := by
  constructor
  · rfl
  · decide

/-- C2 (amended): every emitted `tool-call-delta` carries a non-empty id
(so a wire tool call without an id always receives a non-empty repaired
id), and the (up to two) delta events emitted for one chunk entry all
carry the same resolved id; but an id-less entry draws a fresh generated
id on each chunk rather than reusing one keyed by the wire index. -/
theorem stream_repaired_ids_nonempty_consistent (supply : IdSupply) :
    (∀ chunks : List ChunkParseResult,
      (processStream supply chunks).all toolCallIdNonempty = true) ∧
    (∀ (counter : Nat) (tc : DeltaToolCall),
      eventsShareOneId (processDeltaToolCall supply counter tc).1 = true) ∧
    (∀ (counter : Nat) (tc : DeltaToolCall), tc.id = none →
      resolveStreamToolCallId supply counter tc =
        (mkStreamToolCallId (supply counter), counter + 1)) := by
  refine ⟨?_, ?_, ?_⟩
  · intro chunks
    have hTC := processDeltaToolCall_all_cases supply toolCallIdNonempty
      (by intro tid nm ar htid; simpa [toolCallIdNonempty] using htid)
    have hrun := runChunks_all supply toolCallIdNonempty rfl
      (fun _ _ _ => rfl) (fun _ => rfl) hTC chunks initStreamState
    simp only [processStream, List.all_append, hrun]
    rfl
  · intro counter tc
    unfold eventsShareOneId
    rcases hfm : (processDeltaToolCall supply counter tc).1.filterMap toolCallIdOf with _ | ⟨x, xs⟩
    · rfl
    · have hmem : ∀ y ∈ x :: xs, y = (resolveStreamToolCallId supply counter tc).1 := by
        intro y hy
        rw [← hfm] at hy
        obtain ⟨e, he, hey⟩ := List.mem_filterMap.mp hy
        have := processDeltaToolCall_ids supply counter tc e he
        rw [this] at hey
        exact (Option.some.injEq _ _).mp hey.symm ▸ rfl
      have hx := hmem x (List.mem_cons_self x xs)
      simp only [List.all_eq_true]
      intro y hy
      have hyv := hmem y (List.mem_cons_of_mem x hy)
      simp [hyv, hx]
  · intro counter tc hid
    unfold resolveStreamToolCallId
    rw [hid]

/-- C2 witness: the amended theorem applied at the counterexample supply;
its first two components evaluated on the counterexample stream and entry. -/
theorem stream_repaired_ids_nonempty_consistent_witness :
    (processStream cexSupply [cexChunk1, cexChunk2]).all toolCallIdNonempty = true ∧
    resolveStreamToolCallId cexSupply 0
        { index := some 0, id := none
          function := some { name := some "get_weather", arguments := some "\x7b\"ci" } } =
      (mkStreamToolCallId (cexSupply 0), 1) :=
  ⟨(stream_repaired_ids_nonempty_consistent cexSupply).1 [cexChunk1, cexChunk2],
   (stream_repaired_ids_nonempty_consistent cexSupply).2.2 0
     { index := some 0, id := none
       function := some { name := some "get_weather", arguments := some "\x7b\"ci" } } rfl⟩

/-- C3: for every streaming response none of whose parsed chunks carries
a usage object, the single finish event emitted at flush reports usage
exactly `{promptTokens: 0, completionTokens: 0}` (the zero-initialized
snapshot — the `part_004` engine initializes it to literal zeros, not
`NaN`), and it is the last event. -/
theorem stream_zero_usage_finish (supply : IdSupply)
    (chunks : List ChunkParseResult)
    (h : ∀ v, ChunkParseResult.success v ∈ chunks → v.usage = none) :
    (processStream supply chunks).getLast? =
      some (.finish (runChunks supply initStreamState chunks).2.finishReason
        { prompt_tokens := 0, completion_tokens := 0 }) ∧
    (processStream supply chunks).countP isFinishEv = 1 := by
  constructor
  · have husage := runChunks_usage_invariant supply chunks h initStreamState
    simp only [processStream]
    rw [List.getLast?_concat, husage]
    rfl
  · simp only [processStream, List.countP_append,
      runChunks_no_finish supply _ initStreamState]
    rfl

/-- C3 witness: a one-chunk stream whose chunk carries no usage object. -/
theorem stream_zero_usage_finish_witness :
    (processStream cexSupply [.success witnessChunkValue]).getLast? =
      some (.finish (runChunks cexSupply initStreamState [.success witnessChunkValue]).2.finishReason
        { prompt_tokens := 0, completion_tokens := 0 }) ∧
    (processStream cexSupply [.success witnessChunkValue]).countP isFinishEv = 1 :=
  stream_zero_usage_finish cexSupply [.success witnessChunkValue]
    (by
      intro v hv
      simp only [List.mem_singleton] at hv
      cases hv
      rfl)

end DudoxxAI
